import Mathlib

/-!
Shallow embedding of numascope's `webserver.go` (the live variant: the second
`package main` in the file, containing `live`, `change`, `broadcastLabel`,
`broadcastData`, `remove`, `state`, `toggle`, `monitor`).

Modelling conventions:
- Go's global mutable state (`*interval`, `*discrete`, `connections`,
  `present`) is gathered in the `Globals` record and threaded explicitly.
- A Go `panic` is modelled as `Except.error` (for `state`/`toggle`) or
  `Option.none` (for `remove`): the error value never resumes.
- Websocket writes are modelled as `WriteEvent`s: the identity of the target
  connection, the message written, and whether the write succeeded (each
  connection carries a `writeOk` flag standing for the outcome of writes to
  its socket; a failed write is logged by the code and otherwise ignored).
- Calls into the external sensor adapter (`sensor.Enable`, `sensor.Sample`,
  `Activate`) are recorded as opaque `SideEffect`s; `sensor.Sample()`
  returns the sensor's fixed reading vector, modelled by the field
  `sampleValues`.
- Timestamps are `Int` (microseconds, `time.Now().UnixNano() / 1e3`).
-/

deriving instance DecidableEq for Except

namespace Numascope

/-- One sensor event: `type Event` of the adapter, with a description and an
enabled flag (`event.desc`, `event.enabled` in the Go code). -/
structure Event where
  desc : String
  enabled : Bool
deriving Repr, DecidableEq

/-- External view of one present sensor: its name (`Name()`), its ordered
event table (`Events()`), its source count (`Sources()`), and the fixed
reading vector one call to `Sample()` returns. -/
structure Sensor where
  name : String
  events : List Event
  sources : Nat
  sampleValues : List Int
deriving Repr, DecidableEq

/-- One live viewer session: `type Connection` of webserver.go. `id` stands
for the socket pointer used as the connection's identity; `stopped` is the
pause flag; `writeOk` models whether writes on this socket succeed. -/
structure Conn where
  id : Nat
  stopped : Bool
  writeOk : Bool
deriving Repr, DecidableEq

/-- The Go globals read and written by webserver.go: `*interval`,
`*discrete`, the `connections` slice and the `present` sensor list. -/
structure Globals where
  interval : Int
  discrete : Bool
  connections : List Conn
  present : List Sensor
deriving Repr, DecidableEq

/-- Outbound wire messages (payloads kept only where a claim needs them;
Signon's tree/sources payload is elided). -/
inductive Msg
  | signon
  | changeEnabled (interval : Int) (discrete : Bool)
      (enabled : List (String × List String))
  | label (timestamp : Int) (text : String)
  | data (epochs : List (List Int))
deriving Repr, DecidableEq

/-- One `WriteJSON` call: target connection identity, message, outcome. -/
structure WriteEvent where
  connId : Nat
  msg : Msg
  ok : Bool
deriving Repr, DecidableEq

/-- Opaque calls into external code: `sensor.Enable(*discrete)`,
`sensor.Sample()` (the discarded reinitialisation sample), `Activate()`. -/
inductive SideEffect
  | enable (sensorName : String) (discrete : Bool)
  | sample (sensorName : String)
  | activate
deriving Repr, DecidableEq

/-- Log lines the code prints on its non-fatal error paths. -/
inductive LogEvent
  | undefinedValue (v : String)
  | unknownMessage (op : String)
deriving Repr, DecidableEq

/-- An inbound control message: the Go code reads it as `map[string]string`
and looks up the keys Op, Event, State, Value (a missing key reads as ""). -/
structure InMsg where
  op : String
  event : String
  state : String
  value : String
deriving Repr, DecidableEq

/-- The handshake token literal compared against the first message. -/
def secret : String := "463ba1974b06"

/-- The per-sensor enabled-event table the `change` function builds
(`msg.Enabled` in the Go code): for each present sensor, its name paired
with the descriptions of its enabled events, in order. -/
def enabledTree (present : List Sensor) : List (String × List String) :=
  present.map (fun s => (s.name, (s.events.filter (fun e => e.enabled)).map (fun e => e.desc)))

/-- `change(c)`: write one "enabled" ChangeMessage carrying the current
interval, discrete flag and enabled-event table to connection `c`
(a write failure is logged and otherwise ignored). -/
def change (g : Globals) (c : Conn) : WriteEvent :=
  WriteEvent.mk c.id (Msg.changeEnabled g.interval g.discrete (enabledTree g.present)) c.writeOk

/-- The `for _, c := range connections { change(*c) }` loop bodies in
`toggle` and in the "averaging" case of `monitor`. -/
def changeList (g : Globals) : List Conn → List WriteEvent
  | [] => []
  | c :: rest => change g c :: changeList g rest

/-- All "enabled" snapshot writes one rebroadcast performs: one `change`
write per live connection. -/
def changeAll (g : Globals) : List WriteEvent :=
  changeList g g.connections

/-- `broadcastLabel(timestamp, label)`: write a LabelMessage to every
connection unconditionally (no `stopped` check). -/
def broadcastLabel (timestamp : Int) (labelText : String) : List Conn → List WriteEvent
  | [] => []
  | c :: rest =>
      WriteEvent.mk c.id (Msg.label timestamp labelText) c.writeOk ::
        broadcastLabel timestamp labelText rest

/-- `broadcastData(epochs)`: write the epoch batch to every connection whose
`stopped` flag is clear (`continue` skips stopped connections); a write
failure is logged and the loop proceeds with the remaining connections. -/
def broadcastData (epochs : List (List Int)) : List Conn → List WriteEvent
  | [] => []
  | c :: rest =>
      if c.stopped then broadcastData epochs rest
      else WriteEvent.mk c.id (Msg.data epochs) c.writeOk :: broadcastData epochs rest

/-- `broadcastData` acting on the global state: it only reads the
`connections` slice, so the globals come back unchanged (the function never
removes a connection; removal happens only in `remove`). -/
def broadcastDataG (epochs : List (List Int)) (g : Globals) : List WriteEvent × Globals :=
  (broadcastData epochs g.connections, g)

/-- `broadcastLabel` acting on the global state: it only reads the
`connections` slice, so the globals come back unchanged. -/
def broadcastLabelG (timestamp : Int) (labelText : String) (g : Globals) :
    List WriteEvent × Globals :=
  (broadcastLabel timestamp labelText g.connections, g)

/-- The index scan of `remove`: position of the first connection with the
given socket identity (`connections[i].socket == c`). -/
def findIdxOf (cid : Nat) : List Conn → Option Nat
  | [] => none
  | c :: rest => if c.id = cid then some 0 else (findIdxOf cid rest).map (fun i => i + 1)

/-- `remove(c)`: find the connection with this socket identity, overwrite
its slot with the last element and truncate the slice by one. When no
element matches, the Go code panics "element not found"; the panic is
modelled as `none`. -/
def remove (cid : Nat) (conns : List Conn) : Option (List Conn) :=
  match findIdxOf cid conns with
  | none => none
  | some i =>
      match conns.getLast? with
      | none => none
      | some last => some ((conns.set i last).dropLast)

/-- The inner event scan of `state` for a description other than "all":
set the `enabled` flag of the first event whose description matches and
stop scanning; `none` when no event of this sensor matches. -/
def setFirstMatch (desc : String) (enable : Bool) : List Event → Option (List Event)
  | [] => none
  | e :: es =>
      if e.desc = desc then some ({ e with enabled := enable } :: es)
      else
        match setFirstMatch desc enable es with
        | some es' => some (e :: es')
        | none => none

/-- `state(desc, state)`: walk the present sensors in order. On the first
sensor, if `desc == "all"`, enable every event of that sensor, call
`Enable(*discrete)` and a discarded `Sample()`, and return (the early
return stops the walk at the first sensor). Otherwise scan this sensor's
events for `desc`; on the first match set its flag, call
`Enable(*discrete)` and a discarded `Sample()`, and return. When no sensor
matches, the Go code panics "event ... not found", modelled as
`Except.error`. -/
def state (desc : String) (enable : Bool) (discrete : Bool) :
    List Sensor → Except String (List Sensor × List SideEffect)
  | [] => Except.error ("event " ++ desc ++ " not found")
  | sensor :: rest =>
      if desc = "all" then
        Except.ok
          ({ sensor with events := sensor.events.map (fun e => { e with enabled := true }) } :: rest,
           [SideEffect.enable sensor.name discrete, SideEffect.sample sensor.name])
      else
        match setFirstMatch desc enable sensor.events with
        | some events' =>
            Except.ok
              ({ sensor with events := events' } :: rest,
               [SideEffect.enable sensor.name discrete, SideEffect.sample sensor.name])
        | none =>
            match state desc enable discrete rest with
            | Except.ok (rest', effs) => Except.ok (sensor :: rest', effs)
            | Except.error e => Except.error e

/-- `toggle(desc, val)`: map State "on"/"off" to a boolean and call `state`;
any other State value hits the `default: panic("unexpected state")` branch,
modelled as `Except.error`. On success, rebroadcast the "enabled" snapshot
(read from the mutated globals) to every live connection. -/
def toggle (desc val : String) (g : Globals) :
    Except String (Globals × List SideEffect × List WriteEvent) :=
  let run (b : Bool) : Except String (Globals × List SideEffect × List WriteEvent) :=
    match state desc b g.discrete g.present with
    | Except.error e => Except.error e
    | Except.ok (present', effs) =>
        let g' := { g with present := present' }
        Except.ok (g', effs, changeAll g')
  if val = "on" then run true
  else if val = "off" then run false
  else Except.error "unexpected state"

/-- Decimal value of a digit list (most significant first). -/
def digitsVal (l : List Char) : Nat :=
  l.foldl (fun n c => n * 10 + (c.toNat - 48)) 0

/-- Model of Go's `strconv.Atoi`: on a well-formed optionally signed decimal
string, return its value and `true`; otherwise return `0` and `false` (Go
returns `0, err` for a syntax error — the only failure mode the claims
exercise; overflow clamping of out-of-range literals is not modelled). -/
def atoi (s : String) : Int × Bool :=
  let cs := s.toList
  let sign : Int :=
    match cs with
    | c :: _ => if c.toNat = 45 then -1 else 1
    | [] => 1
  let ds : List Char :=
    match cs with
    | c :: r => if c.toNat = 45 || c.toNat = 43 then r else cs
    | [] => []
  if !ds.isEmpty && ds.all Char.isDigit then (sign * (digitsVal ds : Int), true)
  else (0, false)

/-- The `c.stopped = true/false` assignments of the "stop"/"start" cases:
update the flag of the connection with this identity. -/
def setStopped (conns : List Conn) (cid : Nat) (b : Bool) : List Conn :=
  conns.map (fun c => if c.id = cid then { c with stopped := b } else c)

/-- The result of handling one inbound control message in `monitor`'s read
loop: the globals afterwards, the external side effects made, the writes
issued, and the log lines printed. -/
structure HandleResult where
  globals : Globals
  effects : List SideEffect
  writes : List WriteEvent
  logs : List LogEvent
deriving Repr, DecidableEq

/-- One iteration of the `switch msg["Op"]` dispatch in `monitor`'s read
loop, for the connection with identity `self`. "update" runs `toggle`
(whose panics propagate as `Except.error`); "stop"/"start" set this
connection's own flag; "averaging" sets `*discrete` to `Value == "false"`,
calls `Activate()` and rebroadcasts the snapshot to every connection;
"interval" assigns both return values of `strconv.Atoi` — the parsed value
lands in `*interval` even when parsing failed, in which case a warning is
printed; an unknown Op is logged and ignored. -/
def handleMsg (self : Nat) (msg : InMsg) (g : Globals) : Except String HandleResult :=
  if msg.op = "update" then
    match toggle msg.event msg.state g with
    | Except.error e => Except.error e
    | Except.ok (g', effs, ws) => Except.ok (HandleResult.mk g' effs ws [])
  else if msg.op = "stop" then
    Except.ok (HandleResult.mk { g with connections := setStopped g.connections self true } [] [] [])
  else if msg.op = "start" then
    Except.ok (HandleResult.mk { g with connections := setStopped g.connections self false } [] [] [])
  else if msg.op = "averaging" then
    let g' := { g with discrete := msg.value == "false" }
    Except.ok (HandleResult.mk g' [SideEffect.activate] (changeAll g') [])
  else if msg.op = "interval" then
    let r := atoi msg.value
    Except.ok (HandleResult.mk { g with interval := r.1 } [] []
      (if r.2 then [] else [LogEvent.undefinedValue msg.value]))
  else
    Except.ok (HandleResult.mk g [] [] [LogEvent.unknownMessage msg.op])

/-- The loop-local coalescing state of `live`: `lastTimestamp` and the open
`epochs` buffer. -/
structure CoalesceState where
  lastTimestamp : Int
  epochs : List (List Int)
deriving Repr, DecidableEq

/-- What one iteration of `live`'s loop produced: the writes issued, the
names of the sensors whose `Sample()` was called, and the coalescing state
afterwards. -/
structure TickResult where
  writes : List WriteEvent
  sampled : List String
  st : CoalesceState
deriving Repr, DecidableEq

/-- One iteration of the `for` loop in `live`, after the sleep: forward a
pending label (if any) to all connections; if the connection slice is empty,
`continue` without sampling; otherwise sample every present sensor into one
epoch `timestamp :: readings` and coalesce: within the window (or with an
empty buffer) append the epoch to the buffer, otherwise broadcast the
buffered epochs, set `lastTimestamp` to the current timestamp and clear the
buffer (the epoch sampled on this iteration is not appended anywhere in
that branch, mirroring the source). -/
def liveTick (coalescing : Int) (g : Globals) (labelRead : Option String)
    (timestamp : Int) (st : CoalesceState) : TickResult :=
  let labelWrites : List WriteEvent :=
    match labelRead with
    | some l => broadcastLabel timestamp l g.connections
    | none => []
  if g.connections.isEmpty then
    TickResult.mk labelWrites [] st
  else
    let samples : List Int := timestamp :: (g.present.map (fun s => s.sampleValues)).flatten
    if timestamp - st.lastTimestamp < coalescing ∨ st.epochs = [] then
      TickResult.mk labelWrites (g.present.map (fun s => s.name))
        (CoalesceState.mk st.lastTimestamp (st.epochs ++ [samples]))
    else
      TickResult.mk (labelWrites ++ broadcastData st.epochs g.connections)
        (g.present.map (fun s => s.name))
        (CoalesceState.mk timestamp [])

/-- The `monitor` handler up to and including registration: upgrade and read
the first message (`readOk` is the outcome of that read); compare it to the
token, closing silently on mismatch; on match write one Signon message
(`signonWriteOk` is that write's outcome — on failure the handler returns
before registering); then write one "enabled" change snapshot (its write
outcome is the connection's `writeOk`; a failure there is only logged); and
only then append the connection to the registry. Returns the writes issued
and the globals afterwards. -/
def monitorHandshake (readOk : Bool) (message : String) (signonWriteOk : Bool)
    (g : Globals) (c : Conn) : List WriteEvent × Globals :=
  if !readOk then ([], g)
  else if message = secret then
    if signonWriteOk then
      ([WriteEvent.mk c.id Msg.signon true, change g c],
       { g with connections := g.connections ++ [c] })
    else
      ([WriteEvent.mk c.id Msg.signon false], g)
  else ([], g)

/-! ## Helper lemmas -/

/-- The snapshot-rebroadcast loop writes one change message per listed
connection, in order. -/
theorem changeList_eq_map (g : Globals) (l : List Conn) :
    changeList g l = l.map (change g) := by
  induction l with
  | nil => rfl
  | cons c rest ih => simp [changeList, ih]

/-- `broadcastLabel` writes to every connection unconditionally. -/
theorem broadcastLabel_eq_map (t : Int) (lab : String) (l : List Conn) :
    broadcastLabel t lab l =
      l.map (fun c => WriteEvent.mk c.id (Msg.label t lab) c.writeOk) := by
  induction l with
  | nil => rfl
  | cons c rest ih => simp [broadcastLabel, ih]

/-- `broadcastData` writes to exactly the connections whose `stopped` flag
is clear, each with its own write outcome. -/
theorem broadcastData_eq_filter_map (es : List (List Int)) (l : List Conn) :
    broadcastData es l =
      (l.filter (fun c => !c.stopped)).map
        (fun c => WriteEvent.mk c.id (Msg.data es) c.writeOk) := by
  induction l with
  | nil => rfl
  | cons c rest ih =>
    cases hc : c.stopped <;> simp [broadcastData, hc, ih]

/-- When no connection carries the identity, the index scan of `remove`
finds nothing. -/
theorem findIdxOf_none (cid : Nat) (conns : List Conn) :
    (∀ c ∈ conns, c.id ≠ cid) → findIdxOf cid conns = none := by
  induction conns with
  | nil => intro _; rfl
  | cons c rest ih =>
    intro h
    have hc : c.id ≠ cid := h c (by simp)
    simp [findIdxOf, hc]
    exact ih (fun x hx => h x (by simp [hx]))

/-! ## Claims -/

/-- C1: evaluation of the coalescing logic of `live` at the failing input.
Coalescing window 10, one connection, one sensor whose `Sample()` returns
`[7]`, ticks at timestamps 5 and 20. The tick at 5 buffers epoch `[5, 7]`.
The tick at 20 samples epoch `[20, 7]` (its `sampled` list is nonempty) and
flushes: the broadcast batch is `[[5, 7]]` and the buffer afterwards is
empty, so the epoch `[20, 7]` sampled on the flushing tick is in neither a
flushed batch nor the buffer — it is dropped, contradicting the claim that
the concatenation of flushed batches preserves every input epoch. -/
theorem flush_drops_epoch :
    liveTick 10 (Globals.mk 100 false [Conn.mk 0 false true]
        [Sensor.mk "numachip" [Event.mk "n2Hit" true] 1 [7]]) none 20
      (liveTick 10 (Globals.mk 100 false [Conn.mk 0 false true]
        [Sensor.mk "numachip" [Event.mk "n2Hit" true] 1 [7]]) none 5
          (CoalesceState.mk 0 [])).st =
      TickResult.mk [WriteEvent.mk 0 (Msg.data [[5, 7]]) true] ["numachip"]
        (CoalesceState.mk 20 []) ∧
    ([20, 7] : List Int) ∉ ([[5, 7]] : List (List Int)) := by
  constructor
  · decide
  · decide

/-- C2: evaluation of the "interval" case of `monitor`'s dispatch at the
failing input. With the interval at 100, the message
`{Op: "interval", Value: "abc"}` does log a warning and does not panic, but
the interval becomes 0, not 100: the code assigns `strconv.Atoi`'s zero
return value to `*interval` before checking the error, so the interval is
not left unchanged. -/
theorem interval_reset_on_parse_failure :
    handleMsg 7 (InMsg.mk "interval" "" "" "abc")
        (Globals.mk 100 false [Conn.mk 0 false true] []) =
      Except.ok (HandleResult.mk (Globals.mk 0 false [Conn.mk 0 false true] []) [] []
        [LogEvent.undefinedValue "abc"]) := by
  decide

/-- C3: evaluation of `state("all", true)` at the failing input. With two
present sensors, each holding one disabled event, only the first sensor's
event is enabled and only the first sensor receives the `Enable` call and
the discarded `Sample()`: the early return inside the per-sensor loop stops
the walk at the first sensor, contradicting the claim that every event on
every present sensor is enabled. -/
theorem all_only_first_sensor :
    state "all" true false
        [Sensor.mk "s1" [Event.mk "e1" false] 1 [],
         Sensor.mk "s2" [Event.mk "e2" false] 1 []] =
      Except.ok
        ([Sensor.mk "s1" [Event.mk "e1" true] 1 [],
          Sensor.mk "s2" [Event.mk "e2" false] 1 []],
         [SideEffect.enable "s1" false, SideEffect.sample "s1"]) := by
  decide

/-- C5 counterexample: the first `remove` on a one-connection registry
succeeds and empties the registry; calling `remove` a second time with the
same identity then returns `none`, the model of the
`panic("element not found")` branch — a fatal condition, not a no-op. -/
theorem double_remove_cex :
    remove 0 [Conn.mk 0 false true] = some [] ∧
    remove 0 ([] : List Conn) = none := by
  decide

/-- C5 amended: when `remove` is called with an identity no connection in
the registry carries — as after a prior successful removal of the only
connection with that identity — the scan falls through the loop and the
code panics "element not found" (modelled as `none`); double removal is
fatal, not a no-op. -/
theorem remove_missing_aborts (cid : Nat) (conns : List Conn)
    (h : ∀ c ∈ conns, c.id ≠ cid) : remove cid conns = none := by
  simp [remove, findIdxOf_none cid conns h]

/-- C5 witness: a registry holding one connection with identity 3 does not
contain identity 5, so removing 5 panics. -/
theorem remove_missing_aborts_witness :
    remove 5 [Conn.mk 3 false true] = none :=
  remove_missing_aborts 5 [Conn.mk 3 false true] (by decide)

/-- C8: `broadcastData` writes the batch to exactly the connections whose
`stopped` flag is false, each write carrying its own per-connection
outcome, so one connection's write failure leaves every other connection's
write in place; `broadcastLabel` and the change-snapshot loop write to
every connection unconditionally; and both broadcast operations leave the
global state — in particular the connection registry — unchanged (removal
happens only in `remove`, driven by a connection's own read loop). -/
theorem broadcast_delivery (es : List (List Int)) (t : Int) (lab : String)
    (conns : List Conn) (g : Globals) :
    broadcastData es conns =
      (conns.filter (fun c => !c.stopped)).map
        (fun c => WriteEvent.mk c.id (Msg.data es) c.writeOk) ∧
    broadcastLabel t lab conns =
      conns.map (fun c => WriteEvent.mk c.id (Msg.label t lab) c.writeOk) ∧
    changeAll g = g.connections.map (change g) ∧
    (broadcastDataG es g).2 = g ∧
    (broadcastLabelG t lab g).2 = g :=
  ⟨broadcastData_eq_filter_map es conns, broadcastLabel_eq_map t lab conns,
   changeList_eq_map g g.connections, rfl, rfl⟩

/-- With an empty connection slice, one iteration of `live`'s loop makes no
write (a pending label is broadcast to nobody), samples no sensor, and
leaves the coalescing state untouched. -/
theorem liveTick_empty (W : Int) (g : Globals) (l : Option String) (t : Int)
    (st : CoalesceState) (h : g.connections = []) :
    liveTick W g l t st = TickResult.mk [] [] st := by
  cases l <;> simp [liveTick, h, broadcastLabel]

/-- C7: on every iteration of `live`'s loop at which the connection
registry is empty, the `len(connections) == 0` check makes the loop
`continue` before sampling: no sensor's `Sample()` is called and no
outbound message is written; in particular three consecutive ticks from any
start with zero connections — whatever the timestamps and pending labels —
produce zero writes and zero sensor samples, and leave the coalescing state
where it started. -/
theorem empty_registry_skips (W : Int) (g : Globals) (l1 l2 l3 : Option String)
    (t1 t2 t3 : Int) (st : CoalesceState) (h : g.connections = []) :
    (liveTick W g l1 t1 st).writes = [] ∧ (liveTick W g l1 t1 st).sampled = [] ∧
    (liveTick W g l2 t2 (liveTick W g l1 t1 st).st).writes = [] ∧
    (liveTick W g l2 t2 (liveTick W g l1 t1 st).st).sampled = [] ∧
    (liveTick W g l3 t3 (liveTick W g l2 t2 (liveTick W g l1 t1 st).st).st).writes = [] ∧
    (liveTick W g l3 t3 (liveTick W g l2 t2 (liveTick W g l1 t1 st).st).st).sampled = [] ∧
    (liveTick W g l3 t3 (liveTick W g l2 t2 (liveTick W g l1 t1 st).st).st).st = st := by
  have e : ∀ (l : Option String) (t : Int) (s : CoalesceState),
      liveTick W g l t s = TickResult.mk [] [] s :=
    fun l t s => liveTick_empty W g l t s h
  simp [e]

/-- C7 witness: a fresh start (zero connections, one present sensor,
initial coalescing state) ticked three times, with a label pending on the
first tick. -/
theorem empty_registry_skips_witness :
    (liveTick 10 (Globals.mk 100 false []
        [Sensor.mk "numachip" [Event.mk "n2Hit" true] 1 [7]]) (some "boot") 1
        (CoalesceState.mk 0 [])).writes = [] ∧
    (liveTick 10 (Globals.mk 100 false []
        [Sensor.mk "numachip" [Event.mk "n2Hit" true] 1 [7]]) (some "boot") 1
        (CoalesceState.mk 0 [])).sampled = [] ∧
    (liveTick 10 (Globals.mk 100 false []
        [Sensor.mk "numachip" [Event.mk "n2Hit" true] 1 [7]]) none 2
      (liveTick 10 (Globals.mk 100 false []
        [Sensor.mk "numachip" [Event.mk "n2Hit" true] 1 [7]]) (some "boot") 1
        (CoalesceState.mk 0 [])).st).writes = [] ∧
    (liveTick 10 (Globals.mk 100 false []
        [Sensor.mk "numachip" [Event.mk "n2Hit" true] 1 [7]]) none 2
      (liveTick 10 (Globals.mk 100 false []
        [Sensor.mk "numachip" [Event.mk "n2Hit" true] 1 [7]]) (some "boot") 1
        (CoalesceState.mk 0 [])).st).sampled = [] ∧
    (liveTick 10 (Globals.mk 100 false []
        [Sensor.mk "numachip" [Event.mk "n2Hit" true] 1 [7]]) none 3
      (liveTick 10 (Globals.mk 100 false []
        [Sensor.mk "numachip" [Event.mk "n2Hit" true] 1 [7]]) none 2
        (liveTick 10 (Globals.mk 100 false []
          [Sensor.mk "numachip" [Event.mk "n2Hit" true] 1 [7]]) (some "boot") 1
          (CoalesceState.mk 0 [])).st).st).writes = [] ∧
    (liveTick 10 (Globals.mk 100 false []
        [Sensor.mk "numachip" [Event.mk "n2Hit" true] 1 [7]]) none 3
      (liveTick 10 (Globals.mk 100 false []
        [Sensor.mk "numachip" [Event.mk "n2Hit" true] 1 [7]]) none 2
        (liveTick 10 (Globals.mk 100 false []
          [Sensor.mk "numachip" [Event.mk "n2Hit" true] 1 [7]]) (some "boot") 1
          (CoalesceState.mk 0 [])).st).st).sampled = [] ∧
    (liveTick 10 (Globals.mk 100 false []
        [Sensor.mk "numachip" [Event.mk "n2Hit" true] 1 [7]]) none 3
      (liveTick 10 (Globals.mk 100 false []
        [Sensor.mk "numachip" [Event.mk "n2Hit" true] 1 [7]]) none 2
        (liveTick 10 (Globals.mk 100 false []
          [Sensor.mk "numachip" [Event.mk "n2Hit" true] 1 [7]]) (some "boot") 1
          (CoalesceState.mk 0 [])).st).st).st = CoalesceState.mk 0 [] :=
  empty_registry_skips 10 (Globals.mk 100 false []
    [Sensor.mk "numachip" [Event.mk "n2Hit" true] 1 [7]]) (some "boot") none none
    1 2 3 (CoalesceState.mk 0 []) rfl

/-- C6: a connection that completes the handshake with the correct token
(and whose Signon write succeeds) receives exactly one Signon message
followed by exactly one "enabled" change snapshot, in that order, and the
connection is appended to the registry only as the final step; conversely,
whenever the handshake changes the registry at all, those two messages —
Signon first, change second — were written. Data batches reach only
registry members (`broadcastData` iterates `connections`), so no data batch
can precede those two messages on a fresh connection. -/
theorem handshake_order (g : Globals) (c : Conn) (message : String)
    (hm : message = secret) :
    (monitorHandshake true message true g c).1 =
      [WriteEvent.mk c.id Msg.signon true, change g c] ∧
    (monitorHandshake true message true g c).2.connections = g.connections ++ [c] ∧
    (∀ (rOk sOk : Bool) (m : String),
        (monitorHandshake rOk m sOk g c).2.connections ≠ g.connections →
          (monitorHandshake rOk m sOk g c).1 =
            [WriteEvent.mk c.id Msg.signon true, change g c] ∧
          (monitorHandshake rOk m sOk g c).2.connections = g.connections ++ [c]) := by
  subst hm
  refine ⟨by simp [monitorHandshake], by simp [monitorHandshake], ?_⟩
  intro rOk sOk m hne
  cases rOk <;> cases sOk <;> by_cases hm2 : m = secret <;>
    simp [monitorHandshake, hm2] at hne ⊢

/-- C6 witness: a concrete handshake with the correct token on a registry
already holding one viewer. -/
theorem handshake_order_witness :
    (monitorHandshake true "463ba1974b06" true
        (Globals.mk 100 false [Conn.mk 0 false true] []) (Conn.mk 5 false true)).1 =
      [WriteEvent.mk 5 Msg.signon true,
       change (Globals.mk 100 false [Conn.mk 0 false true] []) (Conn.mk 5 false true)] ∧
    (monitorHandshake true "463ba1974b06" true
        (Globals.mk 100 false [Conn.mk 0 false true] []) (Conn.mk 5 false true)).2.connections =
      [Conn.mk 0 false true] ++ [Conn.mk 5 false true] ∧
    (∀ (rOk sOk : Bool) (m : String),
        (monitorHandshake rOk m sOk
            (Globals.mk 100 false [Conn.mk 0 false true] [])
            (Conn.mk 5 false true)).2.connections ≠ [Conn.mk 0 false true] →
          (monitorHandshake rOk m sOk
              (Globals.mk 100 false [Conn.mk 0 false true] [])
              (Conn.mk 5 false true)).1 =
            [WriteEvent.mk 5 Msg.signon true,
             change (Globals.mk 100 false [Conn.mk 0 false true] []) (Conn.mk 5 false true)] ∧
          (monitorHandshake rOk m sOk
              (Globals.mk 100 false [Conn.mk 0 false true] [])
              (Conn.mk 5 false true)).2.connections =
            [Conn.mk 0 false true] ++ [Conn.mk 5 false true]) :=
  handshake_order (Globals.mk 100 false [Conn.mk 0 false true] [])
    (Conn.mk 5 false true) "463ba1974b06" rfl

/-- C9: an inbound "update" control message whose State value is neither
"on" nor "off" reaches `toggle`'s `default: panic("unexpected state")`
branch, so the dispatch of `monitor`'s read loop is fatal (modelled as
`Except.error`) — both at the level of `toggle` itself and at the public
dispatch level — whereas a message with an unknown Op merely prints
"received unknown message" and leaves the state untouched, the session
continuing. -/
theorem toggle_bad_state_panics (descr v : String) (g : Globals)
    (op e s val : String) (self : Nat)
    (hv1 : v ≠ "on") (hv2 : v ≠ "off")
    (h1 : op ≠ "update") (h2 : op ≠ "stop") (h3 : op ≠ "start")
    (h4 : op ≠ "averaging") (h5 : op ≠ "interval") :
    toggle descr v g = Except.error "unexpected state" ∧
    handleMsg self (InMsg.mk "update" e v val) g = Except.error "unexpected state" ∧
    handleMsg self (InMsg.mk op e s val) g =
      Except.ok (HandleResult.mk g [] [] [LogEvent.unknownMessage op]) := by
  have htog : ∀ d : String, toggle d v g = Except.error "unexpected state" := by
    intro d
    simp [toggle, hv1, hv2]
  refine ⟨htog descr, ?_, ?_⟩
  · simp [handleMsg, htog e]
  · simp [handleMsg, h1, h2, h3, h4, h5]

/-- C9 witness: State "banana" is fatal while Op "frobnicate" is only
logged. -/
theorem toggle_bad_state_panics_witness :
    toggle "n2Hit" "banana" (Globals.mk 100 false [Conn.mk 0 false true] []) =
      Except.error "unexpected state" ∧
    handleMsg 0 (InMsg.mk "update" "n2Hit" "banana" "")
        (Globals.mk 100 false [Conn.mk 0 false true] []) =
      Except.error "unexpected state" ∧
    handleMsg 0 (InMsg.mk "frobnicate" "n2Hit" "on" "")
        (Globals.mk 100 false [Conn.mk 0 false true] []) =
      Except.ok (HandleResult.mk (Globals.mk 100 false [Conn.mk 0 false true] []) [] []
        [LogEvent.unknownMessage "frobnicate"]) :=
  toggle_bad_state_panics "n2Hit" "banana"
    (Globals.mk 100 false [Conn.mk 0 false true] []) "frobnicate" "n2Hit" "on" "" 0
    (by decide) (by decide) (by decide) (by decide) (by decide) (by decide) (by decide)

/-- A successful `toggle` leaves interval, discrete flag and registry
untouched, mutates only the sensor list through `state` (with the boolean
image of the State string), and its writes are exactly one change snapshot
per live connection read from the mutated globals. -/
theorem toggle_ok_decomp (descr val : String) (g g' : Globals)
    (effs : List SideEffect) (ws : List WriteEvent)
    (h : toggle descr val g = Except.ok (g', effs, ws)) :
    ws = changeAll g' ∧ g'.interval = g.interval ∧ g'.discrete = g.discrete ∧
    g'.connections = g.connections ∧
    state descr (val == "on") g.discrete g.present = Except.ok (g'.present, effs) := by
  by_cases hon : val = "on"
  · subst hon
    simp only [toggle, if_pos] at h
    cases hst : state descr true g.discrete g.present with
    | error e => rw [hst] at h; simp at h
    | ok p =>
      obtain ⟨present', effs0⟩ := p
      rw [hst] at h
      simp at h
      obtain ⟨hg, he, hw⟩ := h
      subst hg
      subst he
      subst hw
      exact ⟨rfl, rfl, rfl, rfl, hst⟩
  · by_cases hoff : val = "off"
    · subst hoff
      simp only [toggle, if_neg hon, if_pos] at h
      cases hst : state descr false g.discrete g.present with
      | error e => rw [hst] at h; simp at h
      | ok p =>
        obtain ⟨present', effs0⟩ := p
        rw [hst] at h
        simp at h
        obtain ⟨hg, he, hw⟩ := h
        subst hg
        subst he
        subst hw
        exact ⟨rfl, rfl, rfl, rfl, hst⟩
    · rw [toggle, if_neg hon, if_neg hoff] at h
      simp at h

/-- Success of the inner event scan: the event list splits as a prefix with
no matching description, the first matching event, and an untouched tail;
only the matching event's `enabled` flag is assigned. -/
theorem setFirstMatch_eq_some (descr : String) (b : Bool) (evs : List Event) :
    ∀ evs', setFirstMatch descr b evs = some evs' →
      ∃ pre e post, evs = pre ++ e :: post ∧ e.desc = descr ∧
        (∀ x ∈ pre, x.desc ≠ descr) ∧
        evs' = pre ++ { e with enabled := b } :: post := by
  induction evs with
  | nil => intro evs' h; simp [setFirstMatch] at h
  | cons e es ih =>
    intro evs' h
    by_cases he : e.desc = descr
    · simp only [setFirstMatch, if_pos he] at h
      simp at h
      exact ⟨[], e, es, by simp, he, by simp, h.symm⟩
    · cases hrec : setFirstMatch descr b es with
      | none =>
        simp only [setFirstMatch, if_neg he, hrec] at h
        exact Option.noConfusion h
      | some es' =>
        simp only [setFirstMatch, if_neg he, hrec] at h
        simp at h
        obtain ⟨pre, e0, post, h1, h2, h3, h4⟩ := ih es' hrec
        refine ⟨e :: pre, e0, post, by simp [h1], h2, ?_, by simp [h.symm, h4]⟩
        intro x hx
        rcases List.mem_cons.mp hx with hx | hx
        · subst hx; exact he
        · exact h3 x hx

/-- Failure of the inner event scan: no event of the list matches the
description. -/
theorem setFirstMatch_eq_none (descr : String) (b : Bool) (evs : List Event) :
    setFirstMatch descr b evs = none → ∀ x ∈ evs, x.desc ≠ descr := by
  induction evs with
  | nil => intro _ x hx; simp at hx
  | cons e es ih =>
    intro h x hx
    by_cases he : e.desc = descr
    · simp only [setFirstMatch, if_pos he] at h
      exact Option.noConfusion h
    · cases hrec : setFirstMatch descr b es with
      | some es' =>
        simp only [setFirstMatch, if_neg he, hrec] at h
        exact Option.noConfusion h
      | none =>
        rcases List.mem_cons.mp hx with hx | hx
        · subst hx; exact he
        · exact ih hrec x hx

/-- Success of `state` for a description other than "all": the sensor list
splits as a prefix of sensors none of whose events match, the first sensor
with a matching event — whose event list itself splits around the first
match — and an untouched tail; only that one event's `enabled` flag is
assigned, and the side effects are the `Enable` call and the discarded
`Sample()` on that sensor alone. -/
theorem state_ok_decomp (descr : String) (b d : Bool) (hdesc : descr ≠ "all") :
    ∀ (sensors sensors' : List Sensor) (effs : List SideEffect),
      state descr b d sensors = Except.ok (sensors', effs) →
      ∃ spre s srest pre e post,
        sensors = spre ++ s :: srest ∧
        (∀ t ∈ spre, ∀ x ∈ t.events, x.desc ≠ descr) ∧
        s.events = pre ++ e :: post ∧ e.desc = descr ∧
        (∀ x ∈ pre, x.desc ≠ descr) ∧
        sensors' = spre ++ { s with events := pre ++ { e with enabled := b } :: post } :: srest ∧
        effs = [SideEffect.enable s.name d, SideEffect.sample s.name] := by
  intro sensors
  induction sensors with
  | nil => intro sensors' effs h; simp [state] at h
  | cons sensor rest ih =>
    intro sensors' effs h
    simp only [state, if_neg hdesc] at h
    cases hsf : setFirstMatch descr b sensor.events with
    | some events' =>
      rw [hsf] at h
      simp at h
      obtain ⟨pre, e, post, h1, h2, h3, h4⟩ :=
        setFirstMatch_eq_some descr b sensor.events events' hsf
      obtain ⟨hs, he⟩ := h
      refine ⟨[], sensor, rest, pre, e, post, by simp, by simp, h1, h2, h3, ?_, ?_⟩
      · rw [← hs, h4]
        simp
      · exact he.symm
    | none =>
      rw [hsf] at h
      cases hst : state descr b d rest with
      | error e => rw [hst] at h; simp at h
      | ok p =>
        obtain ⟨rest', effs0⟩ := p
        rw [hst] at h
        simp at h
        obtain ⟨hs, he⟩ := h
        obtain ⟨spre, s, srest, pre, e, post, g1, g2, g3, g4, g5, g6, g7⟩ :=
          ih rest' effs0 hst
        refine ⟨sensor :: spre, s, srest, pre, e, post, by simp [g1], ?_, g3, g4, g5, ?_, ?_⟩
        · intro t ht
          rcases List.mem_cons.mp ht with h9 | h9
          · rw [h9]
            exact setFirstMatch_eq_none descr b sensor.events hsf
          · exact g2 t h9
        · rw [← hs, g6]; simp
        · rw [← he, g7]

/-- C10: handling an "update" message whose Event description is not "all"
and which succeeds leaves the interval, the discrete mode and the
connection registry unchanged, and rewrites the sensor list so that the
sensors before the first match, the events before the first match within
that sensor, and everything after are all exactly as before — only the
first matching event's `enabled` flag is assigned (to State == "on"). -/
theorem update_frame (self : Nat) (ev stS v : String) (g : Globals) (r : HandleResult)
    (hdesc : ev ≠ "all")
    (h : handleMsg self (InMsg.mk "update" ev stS v) g = Except.ok r) :
    r.globals.interval = g.interval ∧ r.globals.discrete = g.discrete ∧
    r.globals.connections = g.connections ∧
    ∃ spre s srest pre e post,
      g.present = spre ++ s :: srest ∧
      (∀ t ∈ spre, ∀ x ∈ t.events, x.desc ≠ ev) ∧
      s.events = pre ++ e :: post ∧ e.desc = ev ∧
      (∀ x ∈ pre, x.desc ≠ ev) ∧
      r.globals.present =
        spre ++ { s with events := pre ++ { e with enabled := (stS == "on") } :: post } :: srest := by
  simp only [handleMsg, if_pos] at h
  cases ht : toggle ev stS g with
  | error e => rw [ht] at h; simp at h
  | ok p =>
    obtain ⟨g', effs, ws⟩ := p
    rw [ht] at h
    simp at h
    subst h
    obtain ⟨hws, hi, hd, hc, hst⟩ := toggle_ok_decomp ev stS g g' effs ws ht
    obtain ⟨spre, s, srest, pre, e, post, d1, d2, d3, d4, d5, d6, d7⟩ :=
      state_ok_decomp ev (stS == "on") g.discrete hdesc g.present g'.present effs hst
    exact ⟨hi, hd, hc, spre, s, srest, pre, e, post, d1, d2, d3, d4, d5, d6⟩

/-- C10 witness: toggling event "b" on, in a registry with one connection
and one sensor holding events "a" (enabled) and "b" (disabled), assigns
only event "b"; interval, discrete mode, the connection and event "a" are
untouched. -/
theorem update_frame_witness :
    (HandleResult.mk
        (Globals.mk 100 true [Conn.mk 0 false true]
          [Sensor.mk "s1" [Event.mk "a" true, Event.mk "b" true] 1 []])
        [SideEffect.enable "s1" true, SideEffect.sample "s1"]
        [WriteEvent.mk 0 (Msg.changeEnabled 100 true [("s1", ["a", "b"])]) true]
        []).globals.interval =
      (Globals.mk 100 true [Conn.mk 0 false true]
        [Sensor.mk "s1" [Event.mk "a" true, Event.mk "b" false] 1 []]).interval ∧
    (HandleResult.mk
        (Globals.mk 100 true [Conn.mk 0 false true]
          [Sensor.mk "s1" [Event.mk "a" true, Event.mk "b" true] 1 []])
        [SideEffect.enable "s1" true, SideEffect.sample "s1"]
        [WriteEvent.mk 0 (Msg.changeEnabled 100 true [("s1", ["a", "b"])]) true]
        []).globals.discrete =
      (Globals.mk 100 true [Conn.mk 0 false true]
        [Sensor.mk "s1" [Event.mk "a" true, Event.mk "b" false] 1 []]).discrete ∧
    (HandleResult.mk
        (Globals.mk 100 true [Conn.mk 0 false true]
          [Sensor.mk "s1" [Event.mk "a" true, Event.mk "b" true] 1 []])
        [SideEffect.enable "s1" true, SideEffect.sample "s1"]
        [WriteEvent.mk 0 (Msg.changeEnabled 100 true [("s1", ["a", "b"])]) true]
        []).globals.connections =
      (Globals.mk 100 true [Conn.mk 0 false true]
        [Sensor.mk "s1" [Event.mk "a" true, Event.mk "b" false] 1 []]).connections ∧
    ∃ spre s srest pre e post,
      (Globals.mk 100 true [Conn.mk 0 false true]
        [Sensor.mk "s1" [Event.mk "a" true, Event.mk "b" false] 1 []]).present =
        spre ++ s :: srest ∧
      (∀ t ∈ spre, ∀ x ∈ t.events, x.desc ≠ "b") ∧
      s.events = pre ++ e :: post ∧ e.desc = "b" ∧
      (∀ x ∈ pre, x.desc ≠ "b") ∧
      (HandleResult.mk
          (Globals.mk 100 true [Conn.mk 0 false true]
            [Sensor.mk "s1" [Event.mk "a" true, Event.mk "b" true] 1 []])
          [SideEffect.enable "s1" true, SideEffect.sample "s1"]
          [WriteEvent.mk 0 (Msg.changeEnabled 100 true [("s1", ["a", "b"])]) true]
          []).globals.present =
        spre ++ { s with events := pre ++ { e with enabled := ("on" == "on") } :: post } :: srest :=
  update_frame 0 "b" "on" "" (Globals.mk 100 true [Conn.mk 0 false true]
      [Sensor.mk "s1" [Event.mk "a" true, Event.mk "b" false] 1 []])
    (HandleResult.mk
      (Globals.mk 100 true [Conn.mk 0 false true]
        [Sensor.mk "s1" [Event.mk "a" true, Event.mk "b" true] 1 []])
      [SideEffect.enable "s1" true, SideEffect.sample "s1"]
      [WriteEvent.mk 0 (Msg.changeEnabled 100 true [("s1", ["a", "b"])]) true]
      [])
    (by decide) (by decide)

/-- C4 counterexample: with two live connections and the interval at 100,
the message `{Op: "interval", Value: "50"}` mutates the control plane (the
interval becomes 50) yet the write list is empty — no "enabled" snapshot is
rebroadcast to either connection, refuting the claim that every
control-plane mutation, including interval operations, triggers a
rebroadcast. -/
theorem interval_no_rebroadcast_cex :
    handleMsg 0 (InMsg.mk "interval" "" "" "50")
        (Globals.mk 100 false [Conn.mk 0 false true, Conn.mk 1 false true] []) =
      Except.ok (HandleResult.mk
        (Globals.mk 50 false [Conn.mk 0 false true, Conn.mk 1 false true] []) [] [] []) ∧
    (50 : Int) ≠ (100 : Int) := by
  constructor
  · decide
  · decide

/-- C4 amended: after an "update" mutation (when `toggle` succeeds) and
after an "averaging" mutation, the current control-state snapshot — read
from the mutated globals — is rebroadcast as one "enabled" change message
to every live connection, not only the originator; an "interval" mutation,
by contrast, triggers no rebroadcast at all. -/
theorem rebroadcast_amended (self : Nat) (ev stS v : String) (g : Globals) :
    handleMsg self (InMsg.mk "averaging" ev stS v) g =
      Except.ok (HandleResult.mk { g with discrete := v == "false" } [SideEffect.activate]
        (changeAll { g with discrete := v == "false" }) []) ∧
    (∀ r, handleMsg self (InMsg.mk "update" ev stS v) g = Except.ok r →
        r.writes = changeAll r.globals) ∧
    (∀ r, handleMsg self (InMsg.mk "interval" ev stS v) g = Except.ok r →
        r.writes = []) := by
  refine ⟨by rfl, ?_, ?_⟩
  · intro r h
    simp only [handleMsg, if_pos] at h
    cases ht : toggle ev stS g with
    | error e => rw [ht] at h; simp at h
    | ok p =>
      obtain ⟨g', effs, ws⟩ := p
      rw [ht] at h
      simp at h
      subst h
      obtain ⟨hws, h2, h3, h4, h5⟩ := toggle_ok_decomp ev stS g g' effs ws ht
      exact hws
  · intro r h
    simp [handleMsg] at h
    subst h
    rfl

/-- C4 witness: on a registry with two connections, "averaging" rebroadcasts
the snapshot to both; a successful "update" produces exactly the
change-snapshot writes of the mutated globals; an "interval" message
produces no writes. -/
theorem rebroadcast_amended_witness :
    handleMsg 0 (InMsg.mk "averaging" "" "" "false")
        (Globals.mk 100 false [Conn.mk 0 false true, Conn.mk 1 false true] []) =
      Except.ok (HandleResult.mk
        (Globals.mk 100 true [Conn.mk 0 false true, Conn.mk 1 false true] [])
        [SideEffect.activate]
        (changeAll (Globals.mk 100 true [Conn.mk 0 false true, Conn.mk 1 false true] []))
        []) ∧
    (HandleResult.mk
        (Globals.mk 100 true [Conn.mk 0 false true]
          [Sensor.mk "s1" [Event.mk "a" true, Event.mk "b" true] 1 []])
        [SideEffect.enable "s1" true, SideEffect.sample "s1"]
        [WriteEvent.mk 0 (Msg.changeEnabled 100 true [("s1", ["a", "b"])]) true]
        []).writes =
      changeAll (HandleResult.mk
        (Globals.mk 100 true [Conn.mk 0 false true]
          [Sensor.mk "s1" [Event.mk "a" true, Event.mk "b" true] 1 []])
        [SideEffect.enable "s1" true, SideEffect.sample "s1"]
        [WriteEvent.mk 0 (Msg.changeEnabled 100 true [("s1", ["a", "b"])]) true]
        []).globals ∧
    (HandleResult.mk
        (Globals.mk 50 false [Conn.mk 0 false true, Conn.mk 1 false true] [])
        [] [] []).writes = [] :=
  ⟨(rebroadcast_amended 0 "" "" "false"
      (Globals.mk 100 false [Conn.mk 0 false true, Conn.mk 1 false true] [])).1,
   (rebroadcast_amended 0 "b" "on" ""
      (Globals.mk 100 true [Conn.mk 0 false true]
        [Sensor.mk "s1" [Event.mk "a" true, Event.mk "b" false] 1 []])).2.1
     (HandleResult.mk
       (Globals.mk 100 true [Conn.mk 0 false true]
         [Sensor.mk "s1" [Event.mk "a" true, Event.mk "b" true] 1 []])
       [SideEffect.enable "s1" true, SideEffect.sample "s1"]
       [WriteEvent.mk 0 (Msg.changeEnabled 100 true [("s1", ["a", "b"])]) true]
       [])
     (by decide),
   (rebroadcast_amended 0 "" "" "50"
      (Globals.mk 100 false [Conn.mk 0 false true, Conn.mk 1 false true] [])).2.2
     (HandleResult.mk
       (Globals.mk 50 false [Conn.mk 0 false true, Conn.mk 1 false true] [])
       [] [] [])
     (by decide)⟩

end Numascope
